import Mathlib

/-!
Verification of the spreadsheet export engine (`dash/tools/export_excel.py`).

The Python source is shallowly embedded below.  Strings are Lean `String`s,
pandas DataFrames become the `DataFrame` structure, and the effectful
excel-writing code (`_write_excel`) becomes an explicit list of write
operations (`WOp`) issued in source order.  The toplevel `export_to_excel`
tool becomes the pure function `exportToExcel`, which threads an explicit
environment (the result the execution backend would deliver, the clock
strings, and an optional injected write failure) and records the observable
effects (whether the backend was called, which files become visible).
-/

namespace DashExport

/-- ASCII lowercasing, character by character (Python `str.lower()` on the
ASCII statements this tool handles). -/
def strLower (s : String) : String :=
  String.mk (s.data.map Char.toLower)

/-- Python `str.strip()`: drop whitespace from both ends. -/
def strTrim (s : String) : String :=
  String.mk (((s.data.dropWhile Char.isWhitespace).reverse.dropWhile Char.isWhitespace).reverse)

/-- Python `str.startswith(pre)`. -/
def strStartsWith (s pre : String) : Bool :=
  pre.data.isPrefixOf s.data

/-- Python `str.endswith(post)` (the `$`-anchored regex alternatives). -/
def strEndsWith (s post : String) : Bool :=
  post.data.isSuffixOf s.data

/-- `strContains s pat` models Python's substring test `pat in s`
(and `re.search` of a literal pattern): `pat` occurs contiguously in `s`. -/
def strContains (s pat : String) : Bool :=
  s.data.tails.any (fun t => pat.data.isPrefixOf t)

/-- Accumulate the maximal whitespace-free runs of a character list
(`cur` holds the current run, reversed). -/
def wsTokensAux (cur : List Char) : List Char → List String
  | [] => if cur.isEmpty then [] else [String.mk cur.reverse]
  | c :: cs =>
    if c.isWhitespace then
      if cur.isEmpty then wsTokensAux [] cs
      else String.mk cur.reverse :: wsTokensAux [] cs
    else wsTokensAux (c :: cur) cs

/-- Splitting a string into whitespace-delimited tokens (the spec's notion of
"standalone whitespace-delimited token"; not itself part of the source). -/
def wsTokens (s : String) : List String :=
  wsTokensAux [] s.data

/-! ## Query Guard (`export_to_excel`, guard section)

Source:
```
sql = query.strip().lower()
if not sql.startswith("select") and not sql.startswith("with"):
    return "Error: Only SELECT queries can be exported."
dangerous = ["drop", "delete", "truncate", "insert", "update", "alter", "create"]
for kw in dangerous:
    if f" \x7bkw\x7d " in f" \x7bsql\x7d ":
        return f"Error: Query contains dangerous keyword: \x7bkw\x7d"
```
-/

/-- `sql = query.strip().lower()` -/
def sqlNorm (query : String) : String :=
  strLower (strTrim query)

/-- The select/with prefix check. -/
def readPrefixOk (sql : String) : Bool :=
  strStartsWith sql "select" || strStartsWith sql "with"

/-- The denylist, in source order. -/
def dangerousKws : List String :=
  ["drop", "delete", "truncate", "insert", "update", "alter", "create"]

/-- The keyword loop: the first denylisted keyword for which
`f" \x7bkw\x7d " in f" \x7bsql\x7d "` holds, if any. -/
def findDangerous (sql : String) : Option String :=
  dangerousKws.find? (fun kw => strContains (" " ++ sql ++ " ") (" " ++ kw ++ " "))

/-! ## Format Inference Engine (`_FORMAT_RULES`, `_detect_format`) -/

/-- One name-pattern rule: a predicate on the (lowercased) column name and
the Excel format code it yields. -/
abbrev FormatRule := (String → Bool) × String

/-- `containsAny s pats`: some literal alternative of a regex pattern occurs in `s`. -/
def containsAny (s : String) (pats : List String) : Bool :=
  pats.any (fun p => strContains s p)

/-- `_FORMAT_RULES`: the ordered rule table from the source.  The regexes are
alternations of literals, except the date rule whose `_dt$` / `_at$`
alternatives are anchored at the end of the name.  `re.I` matching is
embedded by lowercasing the name before the search (the literals are
ASCII lowercase). -/
def FORMAT_RULES : List FormatRule :=
  [ (fun s => containsAny s ["price", "cost", "revenue", "amount", "total",
      "balance", "acctbal", "extendedprice", "supplycost"], "$#,##0.00"),
    (fun s => containsAny s ["pct", "percent", "rate", "ratio", "share"], "0.00%"),
    (fun s => containsAny s ["count", "cnt", "qty", "quantity", "num_"], "#,##0"),
    (fun s => containsAny s ["date"] || strEndsWith s "_dt" || strEndsWith s "_at", "YYYY-MM-DD") ]

/-- First rule of an ordered table that matches the (lowercased) name. -/
def firstRuleMatch (rules : List FormatRule) (name : String) : Option String :=
  (rules.find? (fun r => r.1 (strLower name))).map (fun r => r.2)

/-- `_detect_format(col_name, dtype)` from the source: first matching name
rule, else a fallback on the pandas dtype string
(`"float" in dtype` → `"#,##0.00"`, `"int" in dtype` → `"#,##0"`). -/
def detectFormat (colName dtype : String) : Option String :=
  match firstRuleMatch FORMAT_RULES colName with
  | some fmt => some fmt
  | none =>
    if strContains dtype "float" then some "#,##0.00"
    else if strContains dtype "int" then some "#,##0"
    else none

/-! Reference definition of format inference, written from the spec's words
(section 4.2): a declared value kind instead of a pandas dtype string, an
ordered rule table matched case-insensitively against the name with first
match winning, then a kind fallback. -/

/-- A column's declared value kind (spec data model). -/
inductive ValueKind where
  | integer
  | floating
  | text
  | datetime
  | nullKind
deriving DecidableEq

/-- Modelled from the spec: the ordered name-pattern rule table of §4.2
(same patterns, first match wins). -/
def specRules : List FormatRule :=
  [ (fun s => containsAny s ["price", "cost", "revenue", "amount", "total",
      "balance", "acctbal", "extendedprice", "supplycost"], "$#,##0.00"),
    (fun s => containsAny s ["pct", "percent", "rate", "ratio", "share"], "0.00%"),
    (fun s => containsAny s ["count", "cnt", "qty", "quantity", "num_"], "#,##0"),
    (fun s => containsAny s ["date"] || strEndsWith s "_dt" || strEndsWith s "_at", "YYYY-MM-DD") ]

/-- Modelled from the spec (§4.2): first matching name rule regardless of
kind; otherwise floating-point → 2-decimal thousands-separated, integer →
thousands-separated integer, anything else → no format. -/
def inferFormat (name : String) (kind : ValueKind) : Option String :=
  match firstRuleMatch specRules name with
  | some fmt => some fmt
  | none =>
    match kind with
    | .floating => some "#,##0.00"
    | .integer => some "#,##0"
    | _ => none

/-- The pandas dtype string a column of each value kind carries
(what `str(df[col].dtype)` yields). -/
def dtypeStr : ValueKind → String
  | .integer => "int64"
  | .floating => "float64"
  | .text => "object"
  | .datetime => "datetime64[ns]"
  | .nullKind => "object"

/-! ## Data model -/

/-- A cell value.  `null` models SQL NULL / pandas NaN (`pd.isna` true);
numbers are carried exactly (the claims never depend on float rounding);
`.item()` unwrapping of numpy scalars is the identity here. -/
inductive CellVal where
  | null
  | intV (i : Int)
  | strV (s : String)
deriving DecidableEq

/-- The in-memory result of `pd.read_sql`: ordered named columns with their
dtype strings, and rows of cells aligned to columns. -/
structure DataFrame where
  cols : List String
  dtypes : List String
  rows : List (List CellVal)
deriving DecidableEq

def colNameAt (df : DataFrame) (c : Nat) : String := df.cols.getD c ""

def colDtypeAt (df : DataFrame) (c : Nat) : String := df.dtypes.getD c ""

def cellValAt (df : DataFrame) (r c : Nat) : CellVal := (df.rows.getD r []).getD c .null

/-- `df.empty` in pandas: some axis has length zero. -/
def dfEmpty (df : DataFrame) : Bool :=
  df.rows.length == 0 || df.cols.length == 0

/-- The value conversion applied before each data-cell write:
`if pd.isna(value): value = "" elif hasattr(value, "item"): value = value.item()`. -/
def convertVal : CellVal → CellVal
  | .null => .strV ""
  | v => v

/-- The cell formats the writer builds (`wb.add_format` calls): the pandas
default formats used by `DataFrame.to_excel`, the header / title / subtitle
formats, a per-column number format, the striped (banded) format carrying
the grey background plus the optional number format, and the no-format
write. -/
inductive Fmt where
  | pandasHeader
  | pandasData
  | header
  | title
  | subtitle
  | colNum (fmt : String)
  | stripe (fmt : Option String)
  | plain
deriving DecidableEq

/-- One worksheet operation issued by `_write_excel`, in source order.
`writeCell`/`mergeCells` carry 0-indexed coordinates exactly as in the
xlsxwriter calls. -/
inductive WOp where
  | writeCell (r c : Nat) (v : CellVal) (s : Fmt)
  | mergeCells (r1 c1 r2 c2 : Nat) (v : CellVal) (s : Fmt)
  | autofit
  | freeze (r c : Nat)
  | autofilter (r1 c1 r2 c2 : Nat)
deriving DecidableEq

/-- The content an operation leaves in cell `(r, c)`, if it targets it.
A merge sets the value of its top-left cell. -/
def hitAt (r c : Nat) : WOp → Option (CellVal × Fmt)
  | .writeCell r' c' v s => if r' = r ∧ c' = c then some (v, s) else none
  | .mergeCells r1 c1 _ _ v s => if r1 = r ∧ c1 = c then some (v, s) else none
  | _ => none

def updCell (r c : Nat) (acc : Option (CellVal × Fmt)) (op : WOp) : Option (CellVal × Fmt) :=
  match hitAt r c op with
  | some x => some x
  | none => acc

/-- Final content of cell `(r, c)` after a list of operations: the last
write wins (xlsxwriter overwrites on repeated writes to a cell). -/
def cellContent (ops : List WOp) (r c : Nat) : Option (CellVal × Fmt) :=
  ops.foldl (updCell r c) none

/-! ## Number rendering: Python's thousands-separated f-string `\x7bn:,\x7d`. -/

/-- Insert a comma after every three characters of the reversed digit list. -/
def groupThrees : List Char → List Char
  | a :: b :: c :: d :: rest => a :: b :: c :: ',' :: groupThrees (d :: rest)
  | l => l

/-- Python `f"\x7bn:,\x7d"`: decimal digits grouped in threes by commas. -/
def commaSep (n : Nat) : String :=
  String.mk ((groupThrees (toString n).data.reverse).reverse)

/-! ## Slug and file name

Source:
```
ts = datetime.now().strftime("%Y%m%d_%H%M%S")
slug = re.sub(r"[^a-z0-9]+", "_", (title or "export").lower()).strip("_")[:60]
filepath = exports_dir / f"\x7bslug\x7d_\x7bts\x7d.xlsx"
```
-/

/-- A character the slug keeps: `[a-z0-9]` (the name was lowercased first). -/
def slugAlnum (c : Char) : Bool :=
  c.isLower || c.isDigit

/-- `re.sub(r"[^a-z0-9]+", "_", ·)` on a character list: each maximal run of
non-alphanumeric characters becomes a single underscore.  `inRun` records
whether the previous character belonged to a run already replaced. -/
def collapseRuns (inRun : Bool) : List Char → List Char
  | [] => []
  | c :: cs =>
    if slugAlnum c then c :: collapseRuns false cs
    else if inRun then collapseRuns true cs
    else '_' :: collapseRuns true cs

/-- Python `str.strip("_")`: drop underscores from both ends. -/
def stripUnderscores (l : List Char) : List Char :=
  ((l.dropWhile (fun c => c == '_')).reverse.dropWhile (fun c => c == '_')).reverse

/-- The slug of a base name, as computed by the source: lowercase, collapse
non-alphanumeric runs to `_`, strip `_` at the ends, truncate to 60. -/
def slugOf (base : String) : String :=
  String.mk ((stripUnderscores (collapseRuns false (strLower base).data)).take 60)

/-- Python truthiness of the title (`if title:`): absent or empty is falsy. -/
def titleTruthy : Option String → Bool
  | none => false
  | some t => !(t == "")

/-- `(title or "export")`. -/
def titleOrExport : Option String → String
  | none => "export"
  | some t => if t == "" then "export" else t

/-- The file path chosen by the source: `outputs/exports/<slug>_<ts>.xlsx`. -/
def exportPath (title : Option String) (ts : String) : String :=
  "outputs/exports/" ++ slugOf (titleOrExport title) ++ "_" ++ ts ++ ".xlsx"

/-! ## Layout (`_write_excel`) as a list of operations -/

/-- `header_row = 2 if title else 0` -/
def headerRowOf (title : Option String) : Nat :=
  if titleTruthy title then 2 else 0

/-- `data_start = header_row + 1` -/
def dataStartOf (title : Option String) : Nat :=
  headerRowOf title + 1

/-- The subtitle text
`f"Generated \x7bdatetime.now().strftime(...)\x7d  •  \x7bnum_rows:,\x7d rows"`. -/
def subtitleStr (now : String) (numRows : Nat) : String :=
  "Generated " ++ now ++ "  •  " ++ commaSep numRows ++ " rows"

/-- The cells `df.to_excel(writer, index=False, startrow=header_row)` writes:
the column names at `header_row`, then every data row below, in
pandas-default formats (all of them later overwritten by `_write_excel`). -/
def pandasOps (df : DataFrame) (headerRow : Nat) : List WOp :=
  ((List.range df.cols.length).map
      (fun c => WOp.writeCell headerRow c (.strV (colNameAt df c)) .pandasHeader))
    ++ ((List.range df.rows.length).map
      (fun r => (List.range df.cols.length).map
        (fun c => WOp.writeCell (headerRow + 1 + r) c (convertVal (cellValAt df r c)) .pandasData))).flatten

/-- The title / subtitle block (only under `if title:`): merged across all
columns when there is more than one, else a single cell each. -/
def titleOps (df : DataFrame) (title : Option String) (now : String) : List WOp :=
  match title with
  | none => []
  | some t =>
    if t == "" then []
    else
      let m := df.cols.length
      let sub := subtitleStr now df.rows.length
      (if m > 1 then [WOp.mergeCells 0 0 0 (m - 1) (.strV t) .title]
       else [WOp.writeCell 0 0 (.strV t) .title])
      ++ (if m > 1 then [WOp.mergeCells 1 0 1 (m - 1) (.strV sub) .subtitle]
       else [WOp.writeCell 1 0 (.strV sub) .subtitle])

/-- The header-formatting loop: rewrite each header cell with `header_fmt`. -/
def headerOps (df : DataFrame) (headerRow : Nat) : List WOp :=
  (List.range df.cols.length).map
    (fun c => WOp.writeCell headerRow c (.strV (colNameAt df c)) .header)

/-- The style a data cell at data-row offset `r` receives: the striped
format when `row_idx % 2 == 1`, else the per-column number format when one
was inferred, else a bare write. -/
def dataStyleOf (fmtCode : Option String) (r : Nat) : Fmt :=
  if r % 2 = 1 then .stripe fmtCode
  else
    match fmtCode with
    | some f => .colNum f
    | none => .plain

/-- One data-cell write of the column loop. -/
def dataCellOp (df : DataFrame) (dataStart r c : Nat) (fmtCode : Option String) : WOp :=
  .writeCell (dataStart + r) c (convertVal (cellValAt df r c)) (dataStyleOf fmtCode r)

/-- The per-column data loop: columns outer (source order), rows inner. -/
def dataOps (df : DataFrame) (dataStart : Nat) : List WOp :=
  ((List.range df.cols.length).map
    (fun c =>
      (List.range df.rows.length).map
        (fun r => dataCellOp df dataStart r c
          (detectFormat (colNameAt df c) (colDtypeAt df c))))).flatten

/-- `ws.autofit()`, `ws.freeze_panes(data_start, 0)`,
`ws.autofilter(header_row, 0, header_row + num_rows, num_cols - 1)`. -/
def tailOps (df : DataFrame) (title : Option String) : List WOp :=
  [ .autofit,
    .freeze (dataStartOf title) 0,
    .autofilter (headerRowOf title) 0 (headerRowOf title + df.rows.length) (df.cols.length - 1) ]

/-- All operations `_write_excel` issues, in source order. -/
def writeOps (df : DataFrame) (title : Option String) (now : String) : List WOp :=
  pandasOps df (headerRowOf title)
    ++ titleOps df title now
    ++ headerOps df (headerRowOf title)
    ++ dataOps df (dataStartOf title)
    ++ tailOps df title

/-! ## The export pipeline -/

/-- The outcome of one export call, tagged by the source return site. -/
inductive ExportResult where
  | invalidQueryPrefix
  | dangerousKeyword (kw : String)
  | execError (e : String)
  | emptyResult
  | tooLarge (n : Nat)
  | writeError (e : String)
  | success (path : String) (rows cols : Nat)
deriving DecidableEq

/-- The literal string each return site of `export_to_excel` produces. -/
def resultMessage : ExportResult → String
  | .invalidQueryPrefix => "Error: Only SELECT queries can be exported."
  | .dangerousKeyword kw => "Error: Query contains dangerous keyword: " ++ kw
  | .execError e => "Error executing query: " ++ e
  | .emptyResult => "Error: Query returned no rows."
  | .tooLarge n =>
    "Error: Result has " ++ commaSep n ++ " rows (max " ++ commaSep 100000 ++ "). Add a LIMIT clause."
  | .writeError e => "Error writing Excel file: " ++ e
  | .success path rows cols =>
    "Exported " ++ commaSep rows ++ " rows × " ++ toString cols ++ " columns to:\n" ++ path

def MAX_ROWS : Nat := 100000

/-- The environment an export call runs in: what the execution backend
would return if called, the two clock strings, and an optional injected
failure while writing (raise with message `e` just before executing
operation `k` of the write sequence). -/
structure Env where
  execResult : Except String DataFrame
  ts : String
  now : String
  writeFail : Option (Nat × String)

/-- The observable outcome of one export call: the returned result, whether
the execution backend was invoked, and the files visible at their final
paths afterwards (path with the operations the file holds).

When a write failure is injected mid-sequence, the `pd.ExcelWriter`
context manager still closes the workbook on the way out of the `with`
block (pandas `ExcelWriter.__exit__` calls `close()` unconditionally, and
xlsxwriter materialises the workbook at the final path on close), so the
file visible at the final path holds exactly the operations issued before
the failure. -/
structure Outcome where
  result : ExportResult
  execCalled : Bool
  files : List (String × List WOp)
deriving DecidableEq

/-- The `export_to_excel` tool body as a pure function of the query, the
optional title, the sheet name and the environment. -/
def exportToExcel (env : Env) (query : String) (title : Option String)
    (_sheetName : String) : Outcome :=
  let sql := sqlNorm query
  if !readPrefixOk sql then
    { result := .invalidQueryPrefix, execCalled := false, files := [] }
  else
    match findDangerous sql with
    | some kw => { result := .dangerousKeyword kw, execCalled := false, files := [] }
    | none =>
      match env.execResult with
      | .error e => { result := .execError e, execCalled := true, files := [] }
      | .ok df =>
        if dfEmpty df then
          { result := .emptyResult, execCalled := true, files := [] }
        else if df.rows.length > MAX_ROWS then
          { result := .tooLarge df.rows.length, execCalled := true, files := [] }
        else
          let path := exportPath title env.ts
          let ops := writeOps df title env.now
          match env.writeFail with
          | some (k, e) =>
            if k < ops.length then
              { result := .writeError e, execCalled := true, files := [(path, ops.take k)] }
            else
              { result := .success path df.rows.length df.cols.length,
                execCalled := true, files := [(path, ops)] }
          | none =>
            { result := .success path df.rows.length df.cols.length,
              execCalled := true, files := [(path, ops)] }

/-! ## Reference definition of the file-name slug (from the spec's words) -/

/-- Modelled from the spec (§4.4): one step of building the slug left to
right — keep an alphanumeric character; for a non-alphanumeric character
append a single underscore unless the run is already represented by one
(so every run of non-alphanumeric characters collapses to a single
underscore). -/
def specStep (acc : List Char) (c : Char) : List Char :=
  if slugAlnum c then acc ++ [c]
  else if acc.getLast? == some '_' then acc
  else acc ++ ['_']

/-- Modelled from the spec (§4.4): the title lowercased, every run of
non-alphanumeric characters collapsed to a single underscore,
leading/trailing underscores trimmed, truncated to 60 characters. -/
def slugSpec (t : String) : String :=
  String.mk ((stripUnderscores ((strLower t).data.foldl specStep [])).take 60)

/-! ## Banding -/

/-- Whether the final style of the data cell at data-row offset `r`, column
`c` of the written sheet is the banded (striped) one. -/
def bandedAt (df : DataFrame) (title : Option String) (now : String) (r c : Nat) : Bool :=
  match cellContent (writeOps df title now) (dataStartOf title + r) c with
  | some (_, .stripe _) => true
  | _ => false

/-! ## Concrete fixtures used by witnesses and counterexamples -/

/-- A one-column, one-row result set. -/
def dfA : DataFrame := ⟨["a"], ["int64"], [[.intV 1]]⟩

/-- A one-column result set with zero rows. -/
def dfNoRows : DataFrame := ⟨["a"], ["int64"], []⟩

/-- A one-column result set with 100,001 rows. -/
def dfBig : DataFrame := ⟨["a"], ["int64"], List.replicate 100001 [.intV 1]⟩

/-- A two-column, two-row result set whose first column is entirely null. -/
def dfNullCol : DataFrame :=
  ⟨["a", "b"], ["object", "int64"], [[.null, .intV 1], [.null, .intV 2]]⟩

/-- A two-column, two-row result set for layout checks. -/
def dfTwo : DataFrame :=
  ⟨["total_price", "order_count"], ["float64", "int64"], [[.intV 3, .intV 7], [.null, .intV 9]]⟩

/-- An environment whose backend delivers `df`, with fixed clock strings
and an optional injected write failure. -/
def envWith (df : DataFrame) (wf : Option (Nat × String)) : Env :=
  ⟨.ok df, "20260101_120000", "2026-01-01 12:00", wf⟩

/-! ## Helper lemmas: last-write-wins over the operation list -/

/-- `strContains` agrees with the declarative infix relation on character lists. -/
theorem strContains_eq_true_iff (s pat : String) :
    strContains s pat = true ↔ pat.data <:+: s.data := by
  unfold strContains
  rw [List.any_eq_true]
  constructor
  · rintro ⟨t, ht, hp⟩
    rw [List.mem_tails _ _] at ht
    rw [List.isPrefixOf_iff_prefix] at hp
    exact List.infix_iff_prefix_suffix.2 ⟨t, by
      rcases hp with ⟨u, rfl⟩
      rcases ht with ⟨v, hv⟩
      exact ⟨⟨u, rfl⟩, ⟨v, hv⟩⟩⟩
  · intro h
    rcases List.infix_iff_prefix_suffix.1 h with ⟨t, hpre, hsuf⟩
    exact ⟨t, (List.mem_tails _ _).2 hsuf, List.isPrefixOf_iff_prefix.2 hpre⟩


theorem foldl_updCell_none {r c : Nat} {l : List WOp} (a : Option (CellVal × Fmt))
    (h : ∀ op ∈ l, hitAt r c op = none) : l.foldl (updCell r c) a = a := by
  induction l generalizing a with
  | nil => rfl
  | cons op l ih =>
    have h1 : hitAt r c op = none := h op (by simp)
    rw [List.foldl_cons]
    have : updCell r c a op = a := by rw [updCell, h1]
    rw [this]
    exact ih a (fun o ho => h o (by simp [ho]))

theorem foldl_updCell_pivot {r c : Nat} (l₁ l₂ : List WOp) {op : WOp}
    {x : CellVal × Fmt} (a : Option (CellVal × Fmt)) (hop : hitAt r c op = some x)
    (hrest : ∀ o ∈ l₂, hitAt r c o = none) :
    (l₁ ++ op :: l₂).foldl (updCell r c) a = some x := by
  rw [List.foldl_append, List.foldl_cons]
  have : updCell r c (l₁.foldl (updCell r c) a) op = some x := by rw [updCell, hop]
  rw [this]
  exact foldl_updCell_none _ hrest

theorem range_map_split {α : Type} (f : Nat → α) {i n : Nat} (h : i < n) :
    (List.range n).map f =
      ((List.range i).map f) ++ f i :: ((List.range (n - (i + 1))).map (fun j => f (i + 1 + j))) := by
  have hn : n = (i + 1) + (n - (i + 1)) := by omega
  conv_lhs => rw [hn]
  rw [List.range_add, List.map_append, List.range_succ, List.map_append, List.map_map]
  simp [Function.comp_def]

/-! Which operations can touch which cells -/

theorem hitAt_tailOps {df : DataFrame} {title : Option String} {r c : Nat} :
    ∀ op ∈ tailOps df title, hitAt r c op = none := by
  intro op hop
  simp only [tailOps, List.mem_cons, List.not_mem_nil, or_false] at hop
  rcases hop with rfl | rfl | rfl <;> rfl

theorem hitAt_headerOps_ne_row {df : DataFrame} {hr r c : Nat} (hne : r ≠ hr) :
    ∀ op ∈ headerOps df hr, hitAt r c op = none := by
  intro op hop
  simp only [headerOps, List.mem_map, List.mem_range] at hop
  obtain ⟨c', _, rfl⟩ := hop
  simp only [hitAt]
  rw [if_neg]
  rintro ⟨h1, _⟩
  exact hne h1.symm

theorem hitAt_dataOps_lt_row {df : DataFrame} {ds r c : Nat} (hlt : r < ds) :
    ∀ op ∈ dataOps df ds, hitAt r c op = none := by
  intro op hop
  simp only [dataOps, List.mem_flatten, List.mem_map, List.mem_range] at hop
  obtain ⟨l, ⟨c', _, rfl⟩, hmem⟩ := hop
  simp only [List.mem_map, List.mem_range] at hmem
  obtain ⟨r', _, rfl⟩ := hmem
  simp only [dataCellOp, hitAt]
  rw [if_neg]
  rintro ⟨h1, _⟩
  omega

theorem hitAt_titleOps_ge_two {df : DataFrame} {title : Option String} {now : String}
    {r c : Nat} (hge : 2 ≤ r) : ∀ op ∈ titleOps df title now, hitAt r c op = none := by
  intro op hop
  match title with
  | none => simp [titleOps] at hop
  | some t =>
    simp only [titleOps] at hop
    by_cases ht : t == ""
    · simp [ht] at hop
    · rw [if_neg (by simp [ht])] at hop
      rw [List.mem_append] at hop
      rcases hop with hop | hop <;> split at hop <;>
          simp only [List.mem_singleton] at hop <;> subst hop <;>
          simp only [hitAt] <;> (rw [if_neg]; rintro ⟨h1, _⟩; omega)

/-! The final content of each region of the written sheet -/

theorem cellContent_writeOps_data (df : DataFrame) (title : Option String) (now : String)
    {r c : Nat} (hr : r < df.rows.length) (hc : c < df.cols.length) :
    cellContent (writeOps df title now) (dataStartOf title + r) c =
      some (convertVal (cellValAt df r c),
        dataStyleOf (detectFormat (colNameAt df c) (colDtypeAt df c)) r) := by
  have hsplitCols :
      dataOps df (dataStartOf title) =
        (((List.range c).map (fun c' =>
            (List.range df.rows.length).map (fun r' => dataCellOp df (dataStartOf title) r' c'
              (detectFormat (colNameAt df c') (colDtypeAt df c'))))).flatten)
          ++ (((List.range r).map (fun r' => dataCellOp df (dataStartOf title) r' c
              (detectFormat (colNameAt df c) (colDtypeAt df c))))
            ++ dataCellOp df (dataStartOf title) r c
                (detectFormat (colNameAt df c) (colDtypeAt df c))
              :: ((List.range (df.rows.length - (r + 1))).map
                  (fun j => dataCellOp df (dataStartOf title) (r + 1 + j) c
                    (detectFormat (colNameAt df c) (colDtypeAt df c))))
            ++ ((List.range (df.cols.length - (c + 1))).map (fun j =>
              (List.range df.rows.length).map (fun r' => dataCellOp df (dataStartOf title) r' (c + 1 + j)
                (detectFormat (colNameAt df (c + 1 + j)) (colDtypeAt df (c + 1 + j)))))).flatten) := by
    rw [dataOps, range_map_split _ hc, List.flatten_append, List.flatten_cons,
      range_map_split _ hr]
  rw [writeOps, cellContent, hsplitCols]
  rw [show
      pandasOps df (headerRowOf title) ++ titleOps df title now
          ++ headerOps df (headerRowOf title)
          ++ ((((List.range c).map (fun c' =>
              (List.range df.rows.length).map (fun r' => dataCellOp df (dataStartOf title) r' c'
                (detectFormat (colNameAt df c') (colDtypeAt df c'))))).flatten)
            ++ (((List.range r).map (fun r' => dataCellOp df (dataStartOf title) r' c
                (detectFormat (colNameAt df c) (colDtypeAt df c))))
              ++ dataCellOp df (dataStartOf title) r c
                  (detectFormat (colNameAt df c) (colDtypeAt df c))
                :: ((List.range (df.rows.length - (r + 1))).map
                    (fun j => dataCellOp df (dataStartOf title) (r + 1 + j) c
                      (detectFormat (colNameAt df c) (colDtypeAt df c))))
              ++ ((List.range (df.cols.length - (c + 1))).map (fun j =>
                (List.range df.rows.length).map (fun r' => dataCellOp df (dataStartOf title) r' (c + 1 + j)
                  (detectFormat (colNameAt df (c + 1 + j)) (colDtypeAt df (c + 1 + j)))))).flatten))
          ++ tailOps df title
        = (pandasOps df (headerRowOf title) ++ titleOps df title now
            ++ headerOps df (headerRowOf title)
            ++ (((List.range c).map (fun c' =>
              (List.range df.rows.length).map (fun r' => dataCellOp df (dataStartOf title) r' c'
                (detectFormat (colNameAt df c') (colDtypeAt df c'))))).flatten)
            ++ ((List.range r).map (fun r' => dataCellOp df (dataStartOf title) r' c
                (detectFormat (colNameAt df c) (colDtypeAt df c)))))
          ++ dataCellOp df (dataStartOf title) r c
              (detectFormat (colNameAt df c) (colDtypeAt df c))
            :: (((List.range (df.rows.length - (r + 1))).map
                  (fun j => dataCellOp df (dataStartOf title) (r + 1 + j) c
                    (detectFormat (colNameAt df c) (colDtypeAt df c))))
              ++ ((List.range (df.cols.length - (c + 1))).map (fun j =>
                (List.range df.rows.length).map (fun r' => dataCellOp df (dataStartOf title) r' (c + 1 + j)
                  (detectFormat (colNameAt df (c + 1 + j)) (colDtypeAt df (c + 1 + j)))))).flatten
              ++ tailOps df title)
      from by simp [List.append_assoc]]
  apply foldl_updCell_pivot
  · simp [dataCellOp, hitAt]
  · intro o ho
    rw [List.mem_append, List.mem_append] at ho
    rcases ho with (ho | ho) | ho
    · simp only [List.mem_map, List.mem_range] at ho
      obtain ⟨j, _, rfl⟩ := ho
      simp only [dataCellOp, hitAt]
      rw [if_neg]
      rintro ⟨h1, _⟩
      omega
    · simp only [List.mem_flatten, List.mem_map, List.mem_range] at ho
      obtain ⟨l, ⟨j, _, rfl⟩, hmem⟩ := ho
      simp only [List.mem_map, List.mem_range] at hmem
      obtain ⟨r', _, rfl⟩ := hmem
      simp only [dataCellOp, hitAt]
      rw [if_neg]
      rintro ⟨_, h2⟩
      omega
    · exact hitAt_tailOps o ho

theorem cellContent_writeOps_header (df : DataFrame) (title : Option String) (now : String)
    {c : Nat} (hc : c < df.cols.length) :
    cellContent (writeOps df title now) (headerRowOf title) c =
      some (.strV (colNameAt df c), .header) := by
  have hsplit : headerOps df (headerRowOf title) =
      ((List.range c).map (fun c' => WOp.writeCell (headerRowOf title) c' (.strV (colNameAt df c')) .header))
        ++ WOp.writeCell (headerRowOf title) c (.strV (colNameAt df c)) .header
          :: ((List.range (df.cols.length - (c + 1))).map
            (fun j => WOp.writeCell (headerRowOf title) (c + 1 + j) (.strV (colNameAt df (c + 1 + j))) .header)) := by
    rw [headerOps, range_map_split _ hc]
  rw [writeOps, cellContent, hsplit]
  rw [show
      pandasOps df (headerRowOf title) ++ titleOps df title now
          ++ (((List.range c).map (fun c' => WOp.writeCell (headerRowOf title) c' (.strV (colNameAt df c')) .header))
            ++ WOp.writeCell (headerRowOf title) c (.strV (colNameAt df c)) .header
              :: ((List.range (df.cols.length - (c + 1))).map
                (fun j => WOp.writeCell (headerRowOf title) (c + 1 + j) (.strV (colNameAt df (c + 1 + j))) .header)))
          ++ dataOps df (dataStartOf title) ++ tailOps df title
        = (pandasOps df (headerRowOf title) ++ titleOps df title now
            ++ ((List.range c).map (fun c' => WOp.writeCell (headerRowOf title) c' (.strV (colNameAt df c')) .header)))
          ++ WOp.writeCell (headerRowOf title) c (.strV (colNameAt df c)) .header
            :: (((List.range (df.cols.length - (c + 1))).map
                (fun j => WOp.writeCell (headerRowOf title) (c + 1 + j) (.strV (colNameAt df (c + 1 + j))) .header))
              ++ (dataOps df (dataStartOf title) ++ tailOps df title))
      from by simp [List.append_assoc]]
  apply foldl_updCell_pivot
  · simp [hitAt]
  · intro o ho
    rw [List.mem_append] at ho
    rcases ho with ho | ho
    · simp only [List.mem_map, List.mem_range] at ho
      obtain ⟨j, _, rfl⟩ := ho
      simp only [hitAt]
      rw [if_neg]
      rintro ⟨_, h2⟩
      omega
    · rw [List.mem_append] at ho
      rcases ho with ho | ho
      · exact hitAt_dataOps_lt_row (by simp [dataStartOf]) o ho
      · exact hitAt_tailOps o ho

theorem titleOps_eq (df : DataFrame) (t now : String) (ht : (t == "") = false) :
    titleOps df (some t) now =
      (if df.cols.length > 1
       then [WOp.mergeCells 0 0 0 (df.cols.length - 1) (.strV t) .title]
       else [WOp.writeCell 0 0 (.strV t) .title])
      ++ (if df.cols.length > 1
       then [WOp.mergeCells 1 0 1 (df.cols.length - 1) (.strV (subtitleStr now df.rows.length)) .subtitle]
       else [WOp.writeCell 1 0 (.strV (subtitleStr now df.rows.length)) .subtitle]) := by
  simp only [titleOps]
  rw [if_neg (by simp [ht])]

theorem headerRowOf_some (t : String) (ht : (t == "") = false) :
    headerRowOf (some t) = 2 := by
  simp [headerRowOf, titleTruthy, ht]

theorem cellContent_writeOps_title (df : DataFrame) (t now : String) (ht : (t == "") = false) :
    cellContent (writeOps df (some t) now) 0 0 = some (.strV t, .title) := by
  rw [writeOps, cellContent]
  simp only [List.foldl_append]
  rw [foldl_updCell_none _ hitAt_tailOps]
  rw [foldl_updCell_none _ (hitAt_dataOps_lt_row (by simp [dataStartOf]))]
  rw [foldl_updCell_none _ (hitAt_headerOps_ne_row (by rw [headerRowOf_some t ht]; omega))]
  rw [titleOps_eq df t now ht, List.foldl_append]
  rw [foldl_updCell_none]
  · split <;> simp [updCell, hitAt]
  · intro o ho
    split at ho <;> simp only [List.mem_singleton] at ho <;> subst ho <;>
      simp only [hitAt] <;> (rw [if_neg]; rintro ⟨h1, _⟩; omega)

theorem cellContent_writeOps_subtitle (df : DataFrame) (t now : String) (ht : (t == "") = false) :
    cellContent (writeOps df (some t) now) 1 0 =
      some (.strV (subtitleStr now df.rows.length), .subtitle) := by
  rw [writeOps, cellContent]
  simp only [List.foldl_append]
  rw [foldl_updCell_none _ hitAt_tailOps]
  rw [foldl_updCell_none _ (hitAt_dataOps_lt_row (by simp [dataStartOf, headerRowOf, titleTruthy, ht]))]
  rw [foldl_updCell_none _ (hitAt_headerOps_ne_row (by rw [headerRowOf_some t ht]; omega))]
  rw [titleOps_eq df t now ht, List.foldl_append]
  split <;> simp [updCell, hitAt]

/-- The title / subtitle writes that `_write_excel` issues (merged when more
than one column, single cell otherwise) are among the operations. -/
theorem titleOps_mem (df : DataFrame) (t now : String) (ht : (t == "") = false) :
    ((df.cols.length > 1 →
        WOp.mergeCells 0 0 0 (df.cols.length - 1) (.strV t) .title ∈ writeOps df (some t) now
        ∧ WOp.mergeCells 1 0 1 (df.cols.length - 1)
            (.strV (subtitleStr now df.rows.length)) .subtitle ∈ writeOps df (some t) now)
      ∧ (¬ df.cols.length > 1 →
        WOp.writeCell 0 0 (.strV t) .title ∈ writeOps df (some t) now
        ∧ WOp.writeCell 1 0 (.strV (subtitleStr now df.rows.length)) .subtitle
            ∈ writeOps df (some t) now)) := by
  constructor <;> intro hm <;> constructor <;>
    first
    | · rw [writeOps, titleOps_eq df t now ht, if_pos hm, if_pos hm]
        simp
    | · rw [writeOps, titleOps_eq df t now ht, if_neg hm, if_neg hm]
        simp

/-! ## Shape of the export outcome on each control path -/

theorem exportToExcel_prefix_rejected {env : Env} {q : String} {title : Option String}
    {s : String} (hpre : readPrefixOk (sqlNorm q) = false) :
    exportToExcel env q title s = ⟨.invalidQueryPrefix, false, []⟩ := by
  rw [exportToExcel]
  simp [hpre]

theorem exportToExcel_rejected_kw {env : Env} {q : String} {title : Option String}
    {s kw : String} (hpre : readPrefixOk (sqlNorm q) = true)
    (hkw : findDangerous (sqlNorm q) = some kw) :
    exportToExcel env q title s = ⟨.dangerousKeyword kw, false, []⟩ := by
  rw [exportToExcel]
  simp [hpre, hkw]

theorem exportToExcel_empty {env : Env} {q : String} {title : Option String}
    {s : String} {df : DataFrame} (hpre : readPrefixOk (sqlNorm q) = true)
    (hkw : findDangerous (sqlNorm q) = none) (hex : env.execResult = .ok df)
    (h0 : df.rows.length = 0) :
    exportToExcel env q title s = ⟨.emptyResult, true, []⟩ := by
  rw [exportToExcel]
  simp [hpre, hkw, hex, dfEmpty, h0]

theorem exportToExcel_tooLarge {env : Env} {q : String} {title : Option String}
    {s : String} {df : DataFrame} (hpre : readPrefixOk (sqlNorm q) = true)
    (hkw : findDangerous (sqlNorm q) = none) (hex : env.execResult = .ok df)
    (hcols : df.cols.length ≠ 0) (hbig : df.rows.length > MAX_ROWS) :
    exportToExcel env q title s = ⟨.tooLarge df.rows.length, true, []⟩ := by
  have hemp : dfEmpty df = false := by
    simp only [dfEmpty, Bool.or_eq_false_iff, beq_eq_false_iff_ne, ne_eq]
    refine ⟨?_, hcols⟩
    have hM : MAX_ROWS = 100000 := rfl
    omega
  rw [exportToExcel]
  simp [hpre, hkw, hex, hemp, hbig]

theorem exportToExcel_success {env : Env} {q : String} {title : Option String}
    {s : String} {df : DataFrame} (hpre : readPrefixOk (sqlNorm q) = true)
    (hkw : findDangerous (sqlNorm q) = none) (hex : env.execResult = .ok df)
    (hrows : df.rows.length ≠ 0) (hcols : df.cols.length ≠ 0)
    (hcap : df.rows.length ≤ MAX_ROWS) (hwf : env.writeFail = none) :
    exportToExcel env q title s =
      ⟨.success (exportPath title env.ts) df.rows.length df.cols.length, true,
        [(exportPath title env.ts, writeOps df title env.now)]⟩ := by
  have hemp : dfEmpty df = false := by
    simp only [dfEmpty, Bool.or_eq_false_iff, beq_eq_false_iff_ne, ne_eq]
    exact ⟨hrows, hcols⟩
  have hnb : ¬ df.rows.length > MAX_ROWS := by omega
  rw [exportToExcel]
  simp [hpre, hkw, hex, hemp, hnb, hwf]

theorem exportToExcel_writeFail {env : Env} {q : String} {title : Option String}
    {s e : String} {k : Nat} {df : DataFrame} (hpre : readPrefixOk (sqlNorm q) = true)
    (hkw : findDangerous (sqlNorm q) = none) (hex : env.execResult = .ok df)
    (hrows : df.rows.length ≠ 0) (hcols : df.cols.length ≠ 0)
    (hcap : df.rows.length ≤ MAX_ROWS) (hwf : env.writeFail = some (k, e))
    (hk : k < (writeOps df title env.now).length) :
    exportToExcel env q title s =
      ⟨.writeError e, true,
        [(exportPath title env.ts, (writeOps df title env.now).take k)]⟩ := by
  have hemp : dfEmpty df = false := by
    simp only [dfEmpty, Bool.or_eq_false_iff, beq_eq_false_iff_ne, ne_eq]
    exact ⟨hrows, hcols⟩
  have hnb : ¬ df.rows.length > MAX_ROWS := by omega
  rw [exportToExcel]
  simp [hpre, hkw, hex, hemp, hnb, hwf, hk]

theorem foldl_specStep_eq (l acc : List Char) :
    l.foldl specStep acc = acc ++ collapseRuns (acc.getLast? == some '_') l := by
  induction l generalizing acc with
  | nil => simp [collapseRuns]
  | cons c cs ih =>
    rw [List.foldl_cons, ih]
    by_cases hc : slugAlnum c
    · rw [collapseRuns, if_pos hc]
      have hstep : specStep acc c = acc ++ [c] := by rw [specStep, if_pos hc]
      rw [hstep]
      have hlast : ((acc ++ [c]).getLast? == some '_') = false := by
        rw [List.getLast?_append_cons, List.getLast?_singleton]
        have : c ≠ '_' := by
          rintro rfl
          simp [slugAlnum, Char.isLower, Char.isDigit] at hc
        simp [this]
      rw [hlast]
      simp
    · by_cases hin : (acc.getLast? == some '_') = true
      · rw [collapseRuns, if_neg hc, if_pos hin]
        have hstep : specStep acc c = acc := by rw [specStep, if_neg hc, if_pos hin]
        rw [hstep, hin]
      · rw [collapseRuns, if_neg hc]
        rw [if_neg (by simp_all)]
        have hstep : specStep acc c = acc ++ ['_'] := by
          rw [specStep, if_neg hc, if_neg (by simp_all)]
        rw [hstep]
        have hlast : ((acc ++ ['_']).getLast? == some '_') = true := by
          rw [List.getLast?_append_cons, List.getLast?_singleton]
          simp
        rw [hlast]
        simp

/-- The slug computed by the source coincides with the spec's description. -/
theorem slugOf_eq_slugSpec (t : String) : slugOf t = slugSpec t := by
  rw [slugOf, slugSpec, foldl_specStep_eq]
  rfl

theorem bandedAt_eq_parity (df : DataFrame) (title : Option String) (now : String)
    {r c : Nat} (hr : r < df.rows.length) (hc : c < df.cols.length) :
    bandedAt df title now r c = decide (r % 2 = 1) := by
  rw [bandedAt, cellContent_writeOps_data df title now hr hc]
  by_cases hp : r % 2 = 1
  · rw [dataStyleOf.eq_def, if_pos hp]
    simp [hp]
  · rw [dataStyleOf.eq_def, if_neg hp]
    cases detectFormat (colNameAt df c) (colDtypeAt df c) <;> simp [hp]

theorem exportToExcel_writeFail_ge {env : Env} {q : String} {title : Option String}
    {s e : String} {k : Nat} {df : DataFrame} (hpre : readPrefixOk (sqlNorm q) = true)
    (hkw : findDangerous (sqlNorm q) = none) (hex : env.execResult = .ok df)
    (hrows : df.rows.length ≠ 0) (hcols : df.cols.length ≠ 0)
    (hcap : df.rows.length ≤ MAX_ROWS) (hwf : env.writeFail = some (k, e))
    (hk : ¬ k < (writeOps df title env.now).length) :
    exportToExcel env q title s =
      ⟨.success (exportPath title env.ts) df.rows.length df.cols.length, true,
        [(exportPath title env.ts, writeOps df title env.now)]⟩ := by
  have hemp : dfEmpty df = false := by
    simp only [dfEmpty, Bool.or_eq_false_iff, beq_eq_false_iff_ne, ne_eq]
    exact ⟨hrows, hcols⟩
  have hnb : ¬ df.rows.length > MAX_ROWS := by omega
  rw [exportToExcel]
  simp [hpre, hkw, hex, hemp, hnb, hwf, hk]

/-! ## Claims -/

/-- C1, counterexample to the claim as stated: in the statement
`"select 1\ndrop table t"` (which passes the select/with prefix check) the
keyword `drop` occurs as a standalone whitespace-delimited token, yet the
guard finds no dangerous keyword and the export proceeds to execution —
the padded-substring check only detects single-space delimiters. -/
theorem c1_counterexample :
    readPrefixOk (sqlNorm "select 1\ndrop table t") = true
    ∧ "drop" ∈ wsTokens (sqlNorm "select 1\ndrop table t")
    ∧ "drop" ∈ dangerousKws
    ∧ findDangerous (sqlNorm "select 1\ndrop table t") = none
    ∧ (exportToExcel (envWith dfA none) "select 1\ndrop table t" none "Data").execCalled = true := by
  decide

/-- C1 (amended): given the statement passed the select/with prefix check,
the Query Guard rejects the query iff one of the seven case-insensitive
keywords occurs as a standalone single-space-delimited token — i.e. with a
space (or the statement boundary, after padding) immediately on each side —
somewhere in the statement; a denylisted word occurring only as a substring
inside a longer identifier never triggers rejection, so in particular
`"select createdate from t"` is accepted. -/
theorem c1_guard_space_delimited_tokens (q : String)
    (hpre : readPrefixOk (sqlNorm q) = true) :
    ((findDangerous (sqlNorm q)).isSome ↔
      ∃ kw ∈ dangerousKws, (" " ++ kw ++ " ").data <:+: (" " ++ sqlNorm q ++ " ").data)
    ∧ findDangerous (sqlNorm "select createdate from t") = none := by
  refine ⟨?_, by decide⟩
  rw [findDangerous, List.find?_isSome]
  constructor
  · rintro ⟨kw, hmem, hp⟩
    exact ⟨kw, hmem, (strContains_eq_true_iff _ _).1 hp⟩
  · rintro ⟨kw, hmem, hp⟩
    exact ⟨kw, hmem, (strContains_eq_true_iff _ _).2 hp⟩

/-- Witness for C1: a concrete query passing the prefix check on which the
amended guard characterisation is instantiated. -/
theorem c1_guard_space_delimited_tokens_witness :
    readPrefixOk (sqlNorm "select 1; drop table t") = true
    ∧ (((findDangerous (sqlNorm "select 1; drop table t")).isSome ↔
        ∃ kw ∈ dangerousKws,
          (" " ++ kw ++ " ").data <:+: (" " ++ sqlNorm "select 1; drop table t" ++ " ").data)
      ∧ findDangerous (sqlNorm "select createdate from t") = none) :=
  ⟨by decide, c1_guard_space_delimited_tokens "select 1; drop table t" (by decide)⟩

/-- C2, counterexample to the claim as stated: with a failure injected
while writing the cells (here before operation 2 of the write sequence),
the export returns a failure descriptor but a partial file IS visible at
the final output path — the writer context flushes the workbook to the
final path on close, so the write is not atomic. -/
theorem c2_counterexample :
    (exportToExcel (envWith dfA (some (2, "disk full"))) "select 1" none "Data").result
        = .writeError "disk full"
    ∧ (exportToExcel (envWith dfA (some (2, "disk full"))) "select 1" none "Data").files
        = [(exportPath none "20260101_120000", (writeOps dfA none "2026-01-01 12:00").take 2)]
    ∧ (writeOps dfA none "2026-01-01 12:00").take 2 ≠ writeOps dfA none "2026-01-01 12:00"
    ∧ (exportToExcel (envWith dfA (some (2, "disk full"))) "select 1" none "Data").files ≠ [] := by
  decide

/-- C2 (amended): on any failure while producing the artifact (after the
output path is chosen), the export returns a failure descriptor, but the
write is not atomic: a file holding only the operations issued before the
failure — a strict prefix of the full artifact — is visible at the final
output path. -/
theorem c2_write_failure_partial_file (env : Env) (q s e : String) (k : Nat)
    (title : Option String) (df : DataFrame)
    (hpre : readPrefixOk (sqlNorm q) = true) (hkw : findDangerous (sqlNorm q) = none)
    (hex : env.execResult = .ok df) (hrows : df.rows.length ≠ 0)
    (hcols : df.cols.length ≠ 0) (hcap : df.rows.length ≤ MAX_ROWS)
    (hwf : env.writeFail = some (k, e))
    (hk : k < (writeOps df title env.now).length) :
    (exportToExcel env q title s).result = .writeError e
    ∧ (exportToExcel env q title s).files =
        [(exportPath title env.ts, (writeOps df title env.now).take k)]
    ∧ (writeOps df title env.now).take k ≠ writeOps df title env.now := by
  refine ⟨?_, ?_, ?_⟩
  · rw [exportToExcel_writeFail hpre hkw hex hrows hcols hcap hwf hk]
  · rw [exportToExcel_writeFail hpre hkw hex hrows hcols hcap hwf hk]
  intro hEq
  have hlen := congrArg List.length hEq
  rw [List.length_take] at hlen
  omega

/-- Witness for C2 (amended) at a concrete failing export. -/
theorem c2_write_failure_partial_file_witness :
    readPrefixOk (sqlNorm "select 1") = true
    ∧ findDangerous (sqlNorm "select 1") = none
    ∧ (envWith dfA (some (2, "disk full"))).execResult = .ok dfA
    ∧ dfA.rows.length ≠ 0
    ∧ dfA.cols.length ≠ 0
    ∧ dfA.rows.length ≤ MAX_ROWS
    ∧ (envWith dfA (some (2, "disk full"))).writeFail = some (2, "disk full")
    ∧ 2 < (writeOps dfA none (envWith dfA (some (2, "disk full"))).now).length
    ∧ ((exportToExcel (envWith dfA (some (2, "disk full"))) "select 1" none "Data").result
          = .writeError "disk full"
      ∧ (exportToExcel (envWith dfA (some (2, "disk full"))) "select 1" none "Data").files =
          [(exportPath none (envWith dfA (some (2, "disk full"))).ts,
            (writeOps dfA none (envWith dfA (some (2, "disk full"))).now).take 2)]
      ∧ (writeOps dfA none (envWith dfA (some (2, "disk full"))).now).take 2
          ≠ writeOps dfA none (envWith dfA (some (2, "disk full"))).now) :=
  ⟨by decide, by decide, rfl, by decide, by decide, by decide, rfl, by decide,
    c2_write_failure_partial_file (envWith dfA (some (2, "disk full"))) "select 1" "Data"
      "disk full" 2 none dfA (by decide) (by decide) rfl (by decide) (by decide)
      (by decide) rfl (by decide)⟩

/-- C3: format inference from the source (`_detect_format` over column name
and pandas dtype string) equals the reference definition written from the
spec: first matching name rule regardless of value kind; otherwise the
result is determined solely by the value kind (floating-point →
`"#,##0.00"`, integer → `"#,##0"`, anything else → no format). -/
theorem c3_detect_format_matches_spec (name : String) (k : ValueKind) :
    detectFormat name (dtypeStr k) = inferFormat name k := by
  have hrules : firstRuleMatch FORMAT_RULES name = firstRuleMatch specRules name := rfl
  rw [detectFormat.eq_def, inferFormat.eq_def, hrules]
  cases h : firstRuleMatch specRules name with
  | some fmt => rfl
  | none => cases k <;> decide

/-- C4: a guard-accepted export whose execution returns zero rows yields
the empty-result error and writes no file. -/
theorem c4_empty_result (env : Env) (q s : String) (title : Option String) (df : DataFrame)
    (hpre : readPrefixOk (sqlNorm q) = true) (hkw : findDangerous (sqlNorm q) = none)
    (hex : env.execResult = .ok df) (h0 : df.rows.length = 0) :
    (exportToExcel env q title s).result = .emptyResult
    ∧ (exportToExcel env q title s).files = [] := by
  constructor <;> rw [exportToExcel_empty hpre hkw hex h0]

/-- Witness for C4 at a concrete zero-row export. -/
theorem c4_empty_result_witness :
    readPrefixOk (sqlNorm "select 1") = true
    ∧ findDangerous (sqlNorm "select 1") = none
    ∧ (envWith dfNoRows none).execResult = .ok dfNoRows
    ∧ dfNoRows.rows.length = 0
    ∧ ((exportToExcel (envWith dfNoRows none) "select 1" none "Data").result = .emptyResult
      ∧ (exportToExcel (envWith dfNoRows none) "select 1" none "Data").files = []) :=
  ⟨by decide, by decide, rfl, by decide,
    c4_empty_result (envWith dfNoRows none) "select 1" "Data" none dfNoRows
      (by decide) (by decide) rfl (by decide)⟩

/-- C5: a guard-accepted export whose result exceeds 100,000 rows yields
the oversized-result error and writes no file; a result of exactly 100,000
rows is never rejected by this cap. -/
theorem c5_row_cap (env : Env) (q s : String) (title : Option String) (df : DataFrame)
    (hpre : readPrefixOk (sqlNorm q) = true) (hkw : findDangerous (sqlNorm q) = none)
    (hex : env.execResult = .ok df) (hcols : df.cols.length ≠ 0) :
    (df.rows.length > MAX_ROWS →
      (exportToExcel env q title s).result = .tooLarge df.rows.length
      ∧ (exportToExcel env q title s).files = [])
    ∧ (df.rows.length = MAX_ROWS →
      ∀ n, (exportToExcel env q title s).result ≠ .tooLarge n) := by
  constructor
  · intro hbig
    constructor <;> rw [exportToExcel_tooLarge hpre hkw hex hcols hbig]
  · intro hcap n
    have hrows : df.rows.length ≠ 0 := by
      rw [hcap]
      decide
    have hle : df.rows.length ≤ MAX_ROWS := le_of_eq hcap
    cases hwf : env.writeFail with
    | none =>
      rw [exportToExcel_success hpre hkw hex hrows hcols hle hwf]
      simp
    | some ke =>
      obtain ⟨k, e⟩ := ke
      by_cases hk : k < (writeOps df title env.now).length
      · rw [exportToExcel_writeFail hpre hkw hex hrows hcols hle hwf hk]
        simp
      · rw [exportToExcel_writeFail_ge hpre hkw hex hrows hcols hle hwf hk]
        simp

/-- Witness for C5 at a concrete 100,001-row export. -/
theorem c5_row_cap_witness :
    readPrefixOk (sqlNorm "select 1") = true
    ∧ findDangerous (sqlNorm "select 1") = none
    ∧ (envWith dfBig none).execResult = .ok dfBig
    ∧ dfBig.cols.length ≠ 0
    ∧ ((exportToExcel (envWith dfBig none) "select 1" none "Data").result
          = .tooLarge dfBig.rows.length
      ∧ (exportToExcel (envWith dfBig none) "select 1" none "Data").files = []) :=
  ⟨by decide, by decide, rfl, by decide,
    (c5_row_cap (envWith dfBig none) "select 1" "Data" none dfBig
        (by decide) (by decide) rfl (by decide)).1
      (by
        rw [show dfBig.rows = List.replicate 100001 [CellVal.intV 1] from rfl,
          List.length_replicate]
        decide)⟩

/-- C6: on every successful export with a (non-empty) title, row 0 holds
the title (merged across all columns when there is more than one, else a
single cell), row 1 holds the subtitle
`"Generated <timestamp>  •  <row_count> rows"`, the header row is row 2
and data starts at row 3; on every successful export without a title the
header row is row 0 and data starts at row 1. -/
theorem c6_layout (env : Env) (q s : String) (title : Option String) (df : DataFrame)
    (hpre : readPrefixOk (sqlNorm q) = true) (hkw : findDangerous (sqlNorm q) = none)
    (hex : env.execResult = .ok df) (hrows : df.rows.length ≠ 0)
    (hcols : df.cols.length ≠ 0) (hcap : df.rows.length ≤ MAX_ROWS)
    (hwf : env.writeFail = none) :
    (exportToExcel env q title s).files =
      [(exportPath title env.ts, writeOps df title env.now)]
    ∧ (∀ t, title = some t → t ≠ "" →
        cellContent (writeOps df title env.now) 0 0 = some (.strV t, .title)
        ∧ (df.cols.length > 1 →
            WOp.mergeCells 0 0 0 (df.cols.length - 1) (.strV t) .title ∈ writeOps df title env.now)
        ∧ (df.cols.length = 1 →
            WOp.writeCell 0 0 (.strV t) .title ∈ writeOps df title env.now)
        ∧ cellContent (writeOps df title env.now) 1 0 =
            some (.strV (subtitleStr env.now df.rows.length), .subtitle)
        ∧ (∀ c, c < df.cols.length →
            cellContent (writeOps df title env.now) 2 c = some (.strV (colNameAt df c), .header))
        ∧ (∀ r c, r < df.rows.length → c < df.cols.length →
            (cellContent (writeOps df title env.now) (3 + r) c).map Prod.fst =
              some (convertVal (cellValAt df r c))))
    ∧ (titleTruthy title = false →
        (∀ c, c < df.cols.length →
            cellContent (writeOps df title env.now) 0 c = some (.strV (colNameAt df c), .header))
        ∧ (∀ r c, r < df.rows.length → c < df.cols.length →
            (cellContent (writeOps df title env.now) (1 + r) c).map Prod.fst =
              some (convertVal (cellValAt df r c)))) := by
  refine ⟨?_, ?_, ?_⟩
  · rw [exportToExcel_success hpre hkw hex hrows hcols hcap hwf]
  · rintro t rfl hne
    have ht : (t == "") = false := beq_eq_false_iff_ne.2 hne
    have hhr : headerRowOf (some t) = 2 := headerRowOf_some t ht
    have hds : dataStartOf (some t) = 3 := by rw [dataStartOf, hhr]
    refine ⟨cellContent_writeOps_title df t env.now ht, ?_, ?_,
      cellContent_writeOps_subtitle df t env.now ht, ?_, ?_⟩
    · intro hm
      exact ((titleOps_mem df t env.now ht).1 hm).1
    · intro hm
      exact ((titleOps_mem df t env.now ht).2 (by omega)).1
    · intro c hc
      rw [← hhr]
      exact cellContent_writeOps_header df (some t) env.now hc
    · intro r c hr hc
      rw [show 3 + r = dataStartOf (some t) + r from by omega]
      rw [cellContent_writeOps_data df (some t) env.now hr hc]
      rfl
  · intro htf
    have hhr : headerRowOf title = 0 := by simp [headerRowOf, htf]
    have hds : dataStartOf title = 1 := by rw [dataStartOf, hhr]
    constructor
    · intro c hc
      rw [← hhr]
      exact cellContent_writeOps_header df title env.now hc
    · intro r c hr hc
      rw [show 1 + r = dataStartOf title + r from by omega]
      rw [cellContent_writeOps_data df title env.now hr hc]
      rfl

/-- Witness for C6 at a concrete successful titled export. -/
theorem c6_layout_witness :
    readPrefixOk (sqlNorm "select 1") = true
    ∧ findDangerous (sqlNorm "select 1") = none
    ∧ (envWith dfTwo none).execResult = .ok dfTwo
    ∧ dfTwo.rows.length ≠ 0
    ∧ dfTwo.cols.length ≠ 0
    ∧ dfTwo.rows.length ≤ MAX_ROWS
    ∧ (envWith dfTwo none).writeFail = none
    ∧ ((exportToExcel (envWith dfTwo none) "select 1" (some "Report") "Data").files =
        [(exportPath (some "Report") (envWith dfTwo none).ts,
          writeOps dfTwo (some "Report") (envWith dfTwo none).now)]
      ∧ (∀ t, some "Report" = some t → t ≠ "" →
          cellContent (writeOps dfTwo (some "Report") (envWith dfTwo none).now) 0 0
              = some (.strV t, .title)
          ∧ (dfTwo.cols.length > 1 →
              WOp.mergeCells 0 0 0 (dfTwo.cols.length - 1) (.strV t) .title
                ∈ writeOps dfTwo (some "Report") (envWith dfTwo none).now)
          ∧ (dfTwo.cols.length = 1 →
              WOp.writeCell 0 0 (.strV t) .title
                ∈ writeOps dfTwo (some "Report") (envWith dfTwo none).now)
          ∧ cellContent (writeOps dfTwo (some "Report") (envWith dfTwo none).now) 1 0 =
              some (.strV (subtitleStr (envWith dfTwo none).now dfTwo.rows.length), .subtitle)
          ∧ (∀ c, c < dfTwo.cols.length →
              cellContent (writeOps dfTwo (some "Report") (envWith dfTwo none).now) 2 c
                = some (.strV (colNameAt dfTwo c), .header))
          ∧ (∀ r c, r < dfTwo.rows.length → c < dfTwo.cols.length →
              (cellContent (writeOps dfTwo (some "Report") (envWith dfTwo none).now) (3 + r) c).map
                  Prod.fst = some (convertVal (cellValAt dfTwo r c))))
      ∧ (titleTruthy (some "Report") = false →
          (∀ c, c < dfTwo.cols.length →
              cellContent (writeOps dfTwo (some "Report") (envWith dfTwo none).now) 0 c
                = some (.strV (colNameAt dfTwo c), .header))
          ∧ (∀ r c, r < dfTwo.rows.length → c < dfTwo.cols.length →
              (cellContent (writeOps dfTwo (some "Report") (envWith dfTwo none).now) (1 + r) c).map
                  Prod.fst = some (convertVal (cellValAt dfTwo r c))))) :=
  ⟨by decide, by decide, rfl, by decide, by decide, by decide, rfl,
    c6_layout (envWith dfTwo none) "select 1" "Data" (some "Report") dfTwo
      (by decide) (by decide) rfl (by decide) (by decide) (by decide) rfl⟩

/-- C7: whether a data cell receives the plain or the banded style is a
function of the row offset's parity within the data region alone (odd
offset = banded); two runs on result sets of equal shape — whatever the
cell values, including an entirely-null column — assign identical banding
to every cell. -/
theorem c7_banding_positional (df : DataFrame) (title : Option String) (now : String)
    (r c : Nat) (hr : r < df.rows.length) (hc : c < df.cols.length) :
    bandedAt df title now r c = decide (r % 2 = 1)
    ∧ ∀ df2 : DataFrame, df2.rows.length = df.rows.length →
        df2.cols.length = df.cols.length →
        bandedAt df2 title now r c = bandedAt df title now r c := by
  refine ⟨bandedAt_eq_parity df title now hr hc, ?_⟩
  intro df2 h1 h2
  rw [bandedAt_eq_parity df2 title now (by omega) (by omega),
    bandedAt_eq_parity df title now hr hc]

/-- Witness for C7 at a concrete result set whose first column is entirely
null. -/
theorem c7_banding_positional_witness :
    1 < dfNullCol.rows.length
    ∧ 0 < dfNullCol.cols.length
    ∧ (bandedAt dfNullCol (some "T") "now" 1 0 = decide (1 % 2 = 1)
      ∧ ∀ df2 : DataFrame, df2.rows.length = dfNullCol.rows.length →
          df2.cols.length = dfNullCol.cols.length →
          bandedAt df2 (some "T") "now" 1 0 = bandedAt dfNullCol (some "T") "now" 1 0) :=
  ⟨by decide, by decide,
    c7_banding_positional dfNullCol (some "T") "now" 1 0 (by decide) (by decide)⟩

/-- C8: on every successful export with a (non-empty) title, the generated
file name is `<slug>_<YYYYMMDD_HHMMSS>.xlsx` where the slug is the title
lowercased with every run of non-alphanumeric characters collapsed to a
single underscore, leading and trailing underscores trimmed, then
truncated to 60 characters; in particular `"Q1 Revenue Report!"` yields
the slug `q1_revenue_report`. -/
theorem c8_filename (env : Env) (q s t : String) (df : DataFrame) (ht : t ≠ "")
    (hpre : readPrefixOk (sqlNorm q) = true) (hkw : findDangerous (sqlNorm q) = none)
    (hex : env.execResult = .ok df) (hrows : df.rows.length ≠ 0)
    (hcols : df.cols.length ≠ 0) (hcap : df.rows.length ≤ MAX_ROWS)
    (hwf : env.writeFail = none) :
    (exportToExcel env q (some t) s).files.map Prod.fst =
      ["outputs/exports/" ++ slugSpec t ++ "_" ++ env.ts ++ ".xlsx"]
    ∧ slugSpec "Q1 Revenue Report!" = "q1_revenue_report" := by
  refine ⟨?_, by decide⟩
  rw [exportToExcel_success hpre hkw hex hrows hcols hcap hwf]
  have hto : titleOrExport (some t) = t := by
    simp [titleOrExport, ht]
  simp [exportPath, hto, slugOf_eq_slugSpec]

/-- Witness for C8 at the concrete title of the claim. -/
theorem c8_filename_witness :
    "Q1 Revenue Report!" ≠ ""
    ∧ readPrefixOk (sqlNorm "select 1") = true
    ∧ findDangerous (sqlNorm "select 1") = none
    ∧ (envWith dfA none).execResult = .ok dfA
    ∧ dfA.rows.length ≠ 0
    ∧ dfA.cols.length ≠ 0
    ∧ dfA.rows.length ≤ MAX_ROWS
    ∧ (envWith dfA none).writeFail = none
    ∧ ((exportToExcel (envWith dfA none) "select 1" (some "Q1 Revenue Report!") "Data").files.map
          Prod.fst =
        ["outputs/exports/" ++ slugSpec "Q1 Revenue Report!" ++ "_" ++ (envWith dfA none).ts
          ++ ".xlsx"]
      ∧ slugSpec "Q1 Revenue Report!" = "q1_revenue_report") :=
  ⟨by decide, by decide, by decide, rfl, by decide, by decide, by decide, rfl,
    c8_filename (envWith dfA none) "select 1" "Data" "Q1 Revenue Report!" dfA
      (by decide) (by decide) (by decide) rfl (by decide) (by decide) (by decide) rfl⟩

/-- C9: every query rejected by the Query Guard — failing the select/with
prefix check or containing a denylisted keyword — yields the invalid-query
failure, the execution backend is never called, and no file is written. -/
theorem c9_invalid_query_never_executes (env : Env) (q s : String) (title : Option String)
    (hrej : readPrefixOk (sqlNorm q) = false ∨ ∃ kw, findDangerous (sqlNorm q) = some kw) :
    (exportToExcel env q title s).execCalled = false
    ∧ (exportToExcel env q title s).files = []
    ∧ ((exportToExcel env q title s).result = .invalidQueryPrefix
      ∨ ∃ kw, (exportToExcel env q title s).result = .dangerousKeyword kw) := by
  rcases hrej with hpre | ⟨kw, hkw⟩
  · rw [exportToExcel_prefix_rejected hpre]
    exact ⟨rfl, rfl, Or.inl rfl⟩
  · cases hb : readPrefixOk (sqlNorm q) with
    | false =>
      rw [exportToExcel_prefix_rejected hb]
      exact ⟨rfl, rfl, Or.inl rfl⟩
    | true =>
      rw [exportToExcel_rejected_kw hb hkw]
      exact ⟨rfl, rfl, Or.inr ⟨kw, rfl⟩⟩

/-- Witness for C9 at a concrete rejected query. -/
theorem c9_invalid_query_never_executes_witness :
    (readPrefixOk (sqlNorm "DROP TABLE foo") = false
      ∨ ∃ kw, findDangerous (sqlNorm "DROP TABLE foo") = some kw)
    ∧ ((exportToExcel (envWith dfA none) "DROP TABLE foo" none "Data").execCalled = false
      ∧ (exportToExcel (envWith dfA none) "DROP TABLE foo" none "Data").files = []
      ∧ ((exportToExcel (envWith dfA none) "DROP TABLE foo" none "Data").result
            = .invalidQueryPrefix
        ∨ ∃ kw, (exportToExcel (envWith dfA none) "DROP TABLE foo" none "Data").result
            = .dangerousKeyword kw)) :=
  ⟨Or.inl (by decide),
    c9_invalid_query_never_executes (envWith dfA none) "DROP TABLE foo" "Data" none
      (Or.inl (by decide))⟩

/-- C10: an export call whose title argument is the empty string behaves
exactly as if no title were given: the whole outcome coincides, no title
or subtitle band is written (layout identical to the title-less one, with
header row 0 and data starting at row 1), and the file-name slug falls
back to `"export"`. -/
theorem c10_empty_title_behaves_as_none :
    (∀ env : Env, ∀ q s : String, exportToExcel env q (some "") s = exportToExcel env q none s)
    ∧ headerRowOf (some "") = 0
    ∧ dataStartOf (some "") = 1
    ∧ titleOrExport (some "") = "export"
    ∧ ∀ df : DataFrame, ∀ now : String, writeOps df (some "") now = writeOps df none now := by
  have hw : ∀ df : DataFrame, ∀ now : String, writeOps df (some "") now = writeOps df none now := by
    intro df now
    rw [writeOps, writeOps]
    simp [titleOps, headerRowOf, dataStartOf, titleTruthy, tailOps]
  have hh : headerRowOf (some "") = 0 := by simp [headerRowOf, titleTruthy]
  have hds : dataStartOf (some "") = 1 := by rw [dataStartOf, hh]
  have hto : titleOrExport (some "") = "export" := by simp [titleOrExport]
  have hp : ∀ ts : String, exportPath (some "") ts = exportPath none ts := by
    intro ts
    rw [exportPath, exportPath, hto]
    rfl
  refine ⟨?_, hh, hds, hto, hw⟩
  intro env q s
  rw [exportToExcel, exportToExcel]
  simp only [hw, hp]

end DashExport
